import Mathlib

/-!
Shallow embedding of the pokemon CRUD API implemented in `src/index.js`:
the record data model, the identity allocator (next id from a descending
sort limited to one document), the create handler with its falsy-to-50
base-stat defaults and best-effort image fetch, the partial-update merge
engine, the paginated list handler, and the lookup-by-id handler.

JavaScript truthiness is modelled explicitly: an absent value is `none`;
a present number is falsy exactly when it is `0`; a present string is
falsy exactly when it is empty; arrays and objects are always truthy.
The document store is a list of records; `findOne({id})` is a first
match scan, `findOneAndUpdate` replaces the first match.
-/

namespace PokeApi

/-- Multi-locale name of a stored record; every locale is optional in the
store (only `french` is guaranteed on records built by the create path). -/
structure Name where
  english : Option String
  japanese : Option String
  chinese : Option String
  french : Option String
deriving DecidableEq

/-- The six numeric base stats of a stored record. -/
structure BaseStats where
  HP : Nat
  Attack : Nat
  Defense : Nat
  SpecialAttack : Nat
  SpecialDefense : Nat
  Speed : Nat
deriving DecidableEq

/-- A stored record (one document of the collection). -/
structure Pokemon where
  id : Nat
  name : Name
  type : List String
  base : BaseStats
  image : String
deriving DecidableEq

/-- The `base` object of a request body: each stat may be absent. -/
structure BasePatch where
  HP : Option Nat
  Attack : Option Nat
  Defense : Option Nat
  SpecialAttack : Option Nat
  SpecialDefense : Option Nat
  Speed : Option Nat
deriving DecidableEq

/-- The `name` object of a request body: each locale may be absent. -/
structure NamePatch where
  english : Option String
  japanese : Option String
  chinese : Option String
  french : Option String
deriving DecidableEq

/-- JavaScript `v || d` for an optional number: `0` is falsy, so a present
`0` falls back to `d`, as does an absent value. -/
def jsOrNat (v : Option Nat) (d : Nat) : Nat :=
  match v with
  | some n => if n = 0 then d else n
  | none => d

/-- JavaScript `v || d` for an optional string: the empty string is falsy. -/
def jsOrStr (v : Option String) (d : Option String) : Option String :=
  match v with
  | some s => if s = "" then d else some s
  | none => d

/-- JavaScript truthiness of an optional string (used by `if (image)` and
the `parsedName.french` check): present and non-empty. -/
def jsTruthyStr (v : Option String) : Bool :=
  match v with
  | some s => !(s == "")
  | none => false

/-- Base construction at creation (`src/index.js` lines 155-162):
`parsedBase.HP || 50` for each of the six stats. -/
def createBase (pb : BasePatch) : BaseStats :=
  { HP := jsOrNat pb.HP 50
    Attack := jsOrNat pb.Attack 50
    Defense := jsOrNat pb.Defense 50
    SpecialAttack := jsOrNat pb.SpecialAttack 50
    SpecialDefense := jsOrNat pb.SpecialDefense 50
    Speed := jsOrNat pb.Speed 50 }

/-- Base merge at update (`src/index.js` lines 203-212):
`base.HP || existingPokemon.base.HP` for each of the six stats. -/
def mergeBase (existing : BaseStats) (pb : BasePatch) : BaseStats :=
  { HP := jsOrNat pb.HP existing.HP
    Attack := jsOrNat pb.Attack existing.Attack
    Defense := jsOrNat pb.Defense existing.Defense
    SpecialAttack := jsOrNat pb.SpecialAttack existing.SpecialAttack
    SpecialDefense := jsOrNat pb.SpecialDefense existing.SpecialDefense
    Speed := jsOrNat pb.Speed existing.Speed }

/-- Name merge at update (`src/index.js` lines 192-198):
`name.english || existingPokemon.name.english` for each locale. -/
def mergeName (existing : Name) (np : NamePatch) : Name :=
  { english := jsOrStr np.english existing.english
    japanese := jsOrStr np.japanese existing.japanese
    chinese := jsOrStr np.chinese existing.chinese
    french := jsOrStr np.french existing.french }

/-- A PUT request body: the four recognized top-level keys, each optional,
plus the number of unrecognized top-level keys (`Object.keys` counts them
toward the empty-body check but the handler never reads them). -/
structure UpdateBody where
  name : Option NamePatch
  type : Option (List String)
  base : Option BasePatch
  image : Option String
  otherKeys : Nat
deriving DecidableEq

/-- `Object.keys(req.body).length` for an update body. -/
def bodyKeyCount (b : UpdateBody) : Nat :=
  (if b.name.isSome then 1 else 0) + (if b.type.isSome then 1 else 0) +
    (if b.base.isSome then 1 else 0) + (if b.image.isSome then 1 else 0) +
    b.otherKeys

/-- The `updateData` object built by the PUT handler: a field is present
exactly when the handler put a replacement value for it. -/
structure UpdateData where
  name : Option Name
  type : Option (List String)
  base : Option BaseStats
  image : Option String
deriving DecidableEq

/-- Construction of `updateData` (`src/index.js` lines 190-214): `name` and
`base` are field-merged when present, `type` is copied verbatim when
present, `image` is copied when truthy (non-empty). -/
def buildUpdateData (existing : Pokemon) (b : UpdateBody) : UpdateData :=
  { name := match b.name with
      | some np => some (mergeName existing.name np)
      | none => none
    type := b.type
    base := match b.base with
      | some pb => some (mergeBase existing.base pb)
      | none => none
    image := match b.image with
      | some s => if s = "" then none else some s
      | none => none }

/-- `findOneAndUpdate` application of an update set to one document: each
present field replaces the stored one, absent fields are untouched. -/
def applyUpdateData (p : Pokemon) (u : UpdateData) : Pokemon :=
  { id := p.id
    name := u.name.getD p.name
    type := u.type.getD p.type
    base := u.base.getD p.base
    image := u.image.getD p.image }

/-- JavaScript `parseInt(s, 10)`: skip leading spaces, optional sign, then
the longest run of leading decimal digits; `none` models `NaN` (no digit). -/
def parseIntJS (s : String) : Option Int :=
  let digitsVal : List Char → Nat :=
    fun ds => ds.foldl (fun a c => a * 10 + (c.toNat - 48)) 0
  let cs := s.data.dropWhile (fun c => c = ' ')
  match cs with
  | '-' :: rest =>
      let ds := rest.takeWhile Char.isDigit
      if ds.isEmpty then none else some (-(digitsVal ds : Int))
  | '+' :: rest =>
      let ds := rest.takeWhile Char.isDigit
      if ds.isEmpty then none else some ((digitsVal ds : Int))
  | _ =>
      let ds := cs.takeWhile Char.isDigit
      if ds.isEmpty then none else some ((digitsVal ds : Int))

/-- `pokemon.findOne({ id: pokeId })`: first record whose `id` equals the
parsed id; a `NaN` id (`none`) matches no record. -/
def findById (store : List Pokemon) (pid : Option Int) : Option Pokemon :=
  match pid with
  | none => none
  | some n => store.find? (fun p => decide ((p.id : Int) = n))

/-- Rewrite the first record whose id equals `n`, leaving the rest of the
collection as is. -/
def updateFirstAux (store : List Pokemon) (n : Int)
    (f : Pokemon → Pokemon) : List Pokemon :=
  match store with
  | [] => []
  | p :: rest =>
    if (p.id : Int) = n then f p :: rest
    else p :: updateFirstAux rest n f

/-- `findOneAndUpdate`: rewrite the first record matching the id filter,
leave the rest of the collection as is; a `NaN` filter matches nothing. -/
def updateFirst (store : List Pokemon) (pid : Option Int)
    (f : Pokemon → Pokemon) : List Pokemon :=
  match pid with
  | none => store
  | some n => updateFirstAux store n f

/-- Outcome of `GET /pokemons/:id`. -/
inductive GetResult where
  | found (p : Pokemon)
  | notFound
deriving DecidableEq

/-- The `GET /pokemons/:id` handler (`src/index.js` lines 62-74). -/
def getPokemonById (store : List Pokemon) (idParam : String) : GetResult :=
  match findById store (parseIntJS idParam) with
  | some p => .found p
  | none => .notFound

/-- Outcome of `PUT /pokemons/:id`. -/
inductive PutResult where
  | badRequest
  | notFound
  | ok (p : Pokemon)
deriving DecidableEq

/-- The `PUT /pokemons/:id` handler (`src/index.js` lines 174-226): empty or
missing body is a 400 before any store access; a missing record is a 404;
otherwise the merged update set is applied and the updated document
(`new: true`) is returned. -/
def putPokemon (store : List Pokemon) (idParam : String)
    (body : Option UpdateBody) : PutResult × List Pokemon :=
  let pokeId := parseIntJS idParam
  match body with
  | none => (.badRequest, store)
  | some b =>
    if bodyKeyCount b = 0 then (.badRequest, store)
    else
      match findById store pokeId with
      | none => (.notFound, store)
      | some existing =>
        let u := buildUpdateData existing b
        (.ok (applyUpdateData existing u),
          updateFirst store pokeId (fun p => applyUpdateData p u))

/-- Descending order on record ids, the `{ id: -1 }` sort key. -/
def idDescRel (a b : Pokemon) : Prop := b.id ≤ a.id

instance : DecidableRel idDescRel := fun a b => Nat.decLe b.id a.id

instance : IsTotal Pokemon idDescRel := ⟨fun a b => Nat.le_total b.id a.id⟩

instance : IsTrans Pokemon idDescRel := ⟨fun _ _ _ h1 h2 => Nat.le_trans h2 h1⟩

/-- Ascending order on record ids, the `{ id: 1 }` sort key. -/
def idAscRel (a b : Pokemon) : Prop := a.id ≤ b.id

instance : DecidableRel idAscRel := fun a b => Nat.decLe a.id b.id

instance : IsTotal Pokemon idAscRel := ⟨fun a b => Nat.le_total a.id b.id⟩

instance : IsTrans Pokemon idAscRel := ⟨fun _ _ _ h1 h2 => Nat.le_trans h1 h2⟩

/-- `pokemon.findOne({}).sort({ id: -1 })`: descending sort on `id`,
limit 1 is the head of the sorted list. -/
def sortByIdDesc (store : List Pokemon) : List Pokemon :=
  List.insertionSort idDescRel store

/-- The single document returned by the descending-sort query. -/
def lastPokemon (store : List Pokemon) : Option Pokemon :=
  (sortByIdDesc store).head?

/-- Identity allocation (`src/index.js` lines 121-122):
`lastPokemon ? lastPokemon.id + 1 : 1`. -/
def nextId (store : List Pokemon) : Nat :=
  match lastPokemon store with
  | some p => p.id + 1
  | none => 1

/-- The deterministic image URI stored on every created record
(`src/index.js` line 163). -/
def imageUri (id : Nat) : String :=
  "http://localhost:3000/assets/pokemons/" ++ toString id ++ ".png"

/-- Outcome of the remote image fetch attempted during creation. -/
inductive FetchOutcome where
  | success
  | networkError
  | non2xx
  | timeout
deriving DecidableEq

/-- The fetch writes the asset file only on a 2xx response
(`src/index.js` lines 141-144); every failure is swallowed. -/
def fetchWrites : FetchOutcome → Bool
  | .success => true
  | _ => false

/-- A POST request body after JSON parsing: the recognized keys, each
optional, plus whether a multipart file upload accompanied the request. -/
structure CreateReq where
  name : Option NamePatch
  type : Option (List String)
  base : Option BasePatch
  image : Option String
  hasFile : Bool
deriving DecidableEq

/-- The create validation (`src/index.js` line 116):
`!parsedName || !parsedName.french || !parsedType || !parsedBase`.
A present array or object is always truthy, so only presence is tested for
`type` and `base`, while `french` must be present and non-empty. -/
def validCreate (r : CreateReq) : Bool :=
  match r.name with
  | none => false
  | some n => jsTruthyStr n.french && r.type.isSome && r.base.isSome

/-- A name patch with no locale present. -/
def emptyNamePatch : NamePatch :=
  { english := none, japanese := none, chinese := none, french := none }

/-- A base patch with no stat present. -/
def emptyBasePatch : BasePatch :=
  { HP := none, Attack := none, Defense := none,
    SpecialAttack := none, SpecialDefense := none, Speed := none }

/-- Outcome of `POST /pokemons`. -/
inductive CreateResult where
  | badRequest
  | created (p : Pokemon)
deriving DecidableEq

/-- Full observable outcome of a create: the HTTP-level result, the store
after the request, and whether an asset file was written on disk. -/
structure PostOutcome where
  result : CreateResult
  store : List Pokemon
  assetWritten : Bool
deriving DecidableEq

/-- The `POST /pokemons` handler (`src/index.js` lines 109-171): validate,
allocate the next id, resolve the image (uploaded file, else best-effort
fetch of an `http`-prefixed URL whose failures are ignored), then store a
record holding only the french locale, the defaulted base stats, and the
deterministic image URI. -/
def postPokemon (store : List Pokemon) (r : CreateReq)
    (fetch : FetchOutcome) : PostOutcome :=
  if validCreate r then
    let newId := nextId store
    let assetWritten :=
      if r.hasFile then true
      else
        match r.image with
        | some url => url.startsWith "http" && fetchWrites fetch
        | none => false
    let newPokemon : Pokemon :=
      { id := newId
        name := { english := none, japanese := none, chinese := none,
                  french := (r.name.getD emptyNamePatch).french }
        type := r.type.getD []
        base := createBase (r.base.getD emptyBasePatch)
        image := imageUri newId }
    { result := .created newPokemon, store := store ++ [newPokemon],
      assetWritten := assetWritten }
  else
    { result := .badRequest, store := store, assetWritten := false }

/-- `pokemon.find({}).sort({ id: 1 })`: ascending sort on `id`. -/
def sortByIdAsc (store : List Pokemon) : List Pokemon :=
  List.insertionSort idAscRel store

/-- `parseInt(req.query.page, 10) || 1`: `NaN` and `0` fall back to 1. -/
def pageOf (q : Option Int) : Int :=
  match q with
  | some n => if n = 0 then 1 else n
  | none => 1

/-- `parseInt(req.query.limit, 10) || 20`: `NaN` and `0` fall back to 20. -/
def limitOf (q : Option Int) : Int :=
  match q with
  | some n => if n = 0 then 20 else n
  | none => 20

/-- The pagination envelope returned by the list route. -/
structure Pagination where
  currentPage : Int
  totalPages : Int
  totalPokemons : Nat
  limit : Int
  hasNextPage : Bool
  hasPrevPage : Bool
deriving DecidableEq

/-- The body of the list response: the data slice and its envelope. -/
structure ListResponse where
  data : List Pokemon
  pagination : Pagination
deriving DecidableEq

/-- The `GET /pokemons` handler (`src/index.js` lines 35-59): defaults for
page and limit, `skip = (page-1)*limit`, an ascending-by-id slice of the
collection, and `totalPages = Math.ceil(total / limit)` as the ceiling of
the exact rational quotient. -/
def getPokemons (store : List Pokemon) (pageQ limitQ : Option Int) :
    ListResponse :=
  let page := pageOf pageQ
  let limit := limitOf limitQ
  let skip := (page - 1) * limit
  let data := ((sortByIdAsc store).drop skip.toNat).take limit.toNat
  let total := store.length
  let totalPages : Int := ⌈(total : ℚ) / (limit : ℚ)⌉
  { data := data
    pagination :=
      { currentPage := page
        totalPages := totalPages
        totalPokemons := total
        limit := limit
        hasNextPage := decide (page < totalPages)
        hasPrevPage := decide (page > 1) } }

/-- The maximum `id` held in the store, `0` when the store is empty. -/
def maxId (store : List Pokemon) : Nat :=
  (store.map Pokemon.id).foldr max 0

/-! ### Helper lemmas -/

lemma jsOrNat_pos {v : Option Nat} {d n : Nat} (h : v = some n) (hn : n ≠ 0) :
    jsOrNat v d = n := by
  subst h
  simp [jsOrNat, hn]

lemma jsOrNat_falsy {v : Option Nat} {d : Nat}
    (h : v = none ∨ v = some 0) : jsOrNat v d = d := by
  rcases h with h | h <;> subst h <;> simp [jsOrNat]

lemma le_maxId {store : List Pokemon} {p : Pokemon} (h : p ∈ store) :
    p.id ≤ maxId store := by
  induction h with
  | head rest => exact Nat.le_max_left p.id (maxId rest)
  | tail q hmem ih => exact Nat.le_trans ih (Nat.le_max_right q.id _)

lemma maxId_le {store : List Pokemon} {n : Nat} :
    (∀ p ∈ store, p.id ≤ n) → maxId store ≤ n := by
  induction store with
  | nil => intro _; exact Nat.zero_le n
  | cons q rest ih =>
    intro h
    exact Nat.max_le.mpr ⟨h q (List.mem_cons_self q rest),
      ih fun p hp => h p (List.mem_cons_of_mem q hp)⟩

lemma lastPokemon_spec {store : List Pokemon} {p : Pokemon}
    (h : lastPokemon store = some p) :
    p ∈ store ∧ ∀ q ∈ store, q.id ≤ p.id := by
  unfold lastPokemon sortByIdDesc at h
  have hperm := List.perm_insertionSort idDescRel store
  have hsorted := List.sorted_insertionSort idDescRel store
  cases hs : List.insertionSort idDescRel store with
  | nil => rw [hs] at h; cases h
  | cons a t =>
    rw [hs] at h hperm hsorted
    have ha : a = p := by simpa using h
    subst ha
    refine ⟨hperm.subset (List.mem_cons_self a t), fun q hq => ?_⟩
    rcases List.mem_cons.mp (hperm.symm.subset hq) with hq1 | hq1
    · simp [hq1]
    · exact (List.sorted_cons.mp hsorted).1 q hq1

lemma lastPokemon_none {store : List Pokemon}
    (h : lastPokemon store = none) : store = [] := by
  unfold lastPokemon sortByIdDesc at h
  have hperm := List.perm_insertionSort idDescRel store
  cases hs : List.insertionSort idDescRel store with
  | nil => rw [hs] at hperm; exact hperm.symm.eq_nil
  | cons a t => rw [hs] at h; cases h

/-- The allocator's descending-sort-limit-1 query computes the maximum id:
`nextId` is always the store's maximum id plus one (`0 + 1 = 1` on an
empty store). -/
lemma nextId_eq (store : List Pokemon) : nextId store = maxId store + 1 := by
  unfold nextId
  cases h : lastPokemon store with
  | none =>
    show 1 = maxId store + 1
    rw [lastPokemon_none h]
    rfl
  | some p =>
    obtain ⟨hmem, hmax⟩ := lastPokemon_spec h
    have hid : p.id = maxId store :=
      Nat.le_antisymm (le_maxId hmem) (maxId_le hmax)
    show p.id + 1 = maxId store + 1
    rw [hid]

lemma updateFirstAux_id {n : Int} {f : Pokemon → Pokemon}
    (hf : ∀ p, f p = p) :
    ∀ store : List Pokemon, updateFirstAux store n f = store := by
  intro store
  induction store with
  | nil => rfl
  | cons p rest ih =>
    unfold updateFirstAux
    by_cases h : (p.id : Int) = n
    · rw [if_pos h, hf]
    · rw [if_neg h, ih]

lemma updateFirst_id {store : List Pokemon} {pid : Option Int}
    {f : Pokemon → Pokemon} (hf : ∀ p, f p = p) :
    updateFirst store pid f = store := by
  cases pid with
  | none => rfl
  | some n => exact updateFirstAux_id hf store

/-! ### Concrete demonstration values used by the witnesses -/

/-- A plain record with id `i`, used to build concrete stores. -/
def mkPoke (i : Nat) : Pokemon :=
  { id := i
    name := { english := none, japanese := none, chinese := none,
              french := some "P" }
    type := ["Grass"]
    base := { HP := 50, Attack := 50, Defense := 50,
              SpecialAttack := 50, SpecialDefense := 50, Speed := 50 }
    image := imageUri i }

/-- A two-record store whose maximum id is 7. -/
def demoStore : List Pokemon := [mkPoke 3, mkPoke 7]

/-- A minimal valid create request. -/
def rDemo : CreateReq :=
  { name := some { english := none, japanese := none, chinese := none,
                   french := some "Test" }
    type := some ["Grass"]
    base := some emptyBasePatch
    image := none
    hasFile := false }

/-- The record the create path builds for `rDemo` on `demoStore`. -/
def cDemo8 : Pokemon :=
  { id := 8
    name := { english := none, japanese := none, chinese := none,
              french := some "Test" }
    type := ["Grass"]
    base := { HP := 50, Attack := 50, Defense := 50,
              SpecialAttack := 50, SpecialDefense := 50, Speed := 50 }
    image := imageUri 8 }

/-! ### C1 -/

/-- C1: for every store state, a successful create assigns the new
record's id as the current maximum id in the store plus 1, and id 1 when
the store is empty; the maximum comes from the descending-sort-limit-1
query embedded in `nextId`. -/
theorem create_assigns_next_id (store : List Pokemon) (r : CreateReq)
    (f : FetchOutcome) (p : Pokemon)
    (h : (postPokemon store r f).result = .created p) :
    p.id = maxId store + 1 ∧ (store = [] → p.id = 1) := by
  by_cases hv : validCreate r = true
  · simp only [postPokemon, hv, if_true] at h
    rw [CreateResult.created.injEq] at h
    subst h
    refine ⟨nextId_eq store, fun hs => ?_⟩
    subst hs
    rfl
  · simp only [postPokemon, hv, Bool.false_eq_true, if_false] at h
    cases h

/-- Witness for C1 at a concrete store with ids 3 and 7: the created
record gets id 8. -/
theorem create_assigns_next_id_witness :
    (postPokemon demoStore rDemo .success).result = .created cDemo8 ∧
    cDemo8.id = maxId demoStore + 1 :=
  ⟨rfl, (create_assigns_next_id demoStore rDemo .success cDemo8 rfl).1⟩

/-! ### C2 -/

/-- C2: for every existing record and every update patch carrying a base
object, each of the six base stat fields of the merged result equals the
patch's value when that value is truthy (present and non-zero), and the
existing stored value otherwise; in particular a patch stat of 0 is
ignored and the prior value survives. -/
theorem update_base_stat_merge (e : Pokemon) (b : UpdateBody)
    (pb : BasePatch) (hb : b.base = some pb) :
    ((∀ v, pb.HP = some v → v ≠ 0 →
        (applyUpdateData e (buildUpdateData e b)).base.HP = v) ∧
      ((pb.HP = none ∨ pb.HP = some 0) →
        (applyUpdateData e (buildUpdateData e b)).base.HP = e.base.HP)) ∧
    ((∀ v, pb.Attack = some v → v ≠ 0 →
        (applyUpdateData e (buildUpdateData e b)).base.Attack = v) ∧
      ((pb.Attack = none ∨ pb.Attack = some 0) →
        (applyUpdateData e (buildUpdateData e b)).base.Attack = e.base.Attack)) ∧
    ((∀ v, pb.Defense = some v → v ≠ 0 →
        (applyUpdateData e (buildUpdateData e b)).base.Defense = v) ∧
      ((pb.Defense = none ∨ pb.Defense = some 0) →
        (applyUpdateData e (buildUpdateData e b)).base.Defense = e.base.Defense)) ∧
    ((∀ v, pb.SpecialAttack = some v → v ≠ 0 →
        (applyUpdateData e (buildUpdateData e b)).base.SpecialAttack = v) ∧
      ((pb.SpecialAttack = none ∨ pb.SpecialAttack = some 0) →
        (applyUpdateData e (buildUpdateData e b)).base.SpecialAttack =
          e.base.SpecialAttack)) ∧
    ((∀ v, pb.SpecialDefense = some v → v ≠ 0 →
        (applyUpdateData e (buildUpdateData e b)).base.SpecialDefense = v) ∧
      ((pb.SpecialDefense = none ∨ pb.SpecialDefense = some 0) →
        (applyUpdateData e (buildUpdateData e b)).base.SpecialDefense =
          e.base.SpecialDefense)) ∧
    ((∀ v, pb.Speed = some v → v ≠ 0 →
        (applyUpdateData e (buildUpdateData e b)).base.Speed = v) ∧
      ((pb.Speed = none ∨ pb.Speed = some 0) →
        (applyUpdateData e (buildUpdateData e b)).base.Speed = e.base.Speed)) := by
  have hres : (applyUpdateData e (buildUpdateData e b)).base = mergeBase e.base pb := by
    simp [applyUpdateData, buildUpdateData, hb]
  rw [hres]
  exact ⟨⟨fun v hv hnz => jsOrNat_pos hv hnz, fun hd => jsOrNat_falsy hd⟩,
    ⟨fun v hv hnz => jsOrNat_pos hv hnz, fun hd => jsOrNat_falsy hd⟩,
    ⟨fun v hv hnz => jsOrNat_pos hv hnz, fun hd => jsOrNat_falsy hd⟩,
    ⟨fun v hv hnz => jsOrNat_pos hv hnz, fun hd => jsOrNat_falsy hd⟩,
    ⟨fun v hv hnz => jsOrNat_pos hv hnz, fun hd => jsOrNat_falsy hd⟩,
    ⟨fun v hv hnz => jsOrNat_pos hv hnz, fun hd => jsOrNat_falsy hd⟩⟩

/-- A record with id 5 and Attack 80. -/
def e5 : Pokemon :=
  { id := 5
    name := { english := none, japanese := none, chinese := none,
              french := some "P" }
    type := ["Grass"]
    base := { HP := 60, Attack := 80, Defense := 60,
              SpecialAttack := 60, SpecialDefense := 60, Speed := 60 }
    image := imageUri 5 }

/-- The base patch `{Attack: 0, Defense: 70}`. -/
def pbAD : BasePatch :=
  { HP := none, Attack := some 0, Defense := some 70,
    SpecialAttack := none, SpecialDefense := none, Speed := none }

/-- An update body carrying only the base patch `{Attack: 0, Defense: 70}`. -/
def bAD : UpdateBody :=
  { name := none, type := none, base := some pbAD, image := none,
    otherKeys := 0 }

/-- Witness for C2: merging `{Attack: 0, Defense: 70}` into a record whose
Attack is 80 keeps Attack at 80 (zero ignored) and sets Defense to 70. -/
theorem update_base_stat_merge_witness :
    bAD.base = some pbAD ∧
    (applyUpdateData e5 (buildUpdateData e5 bAD)).base.Attack = 80 ∧
    (applyUpdateData e5 (buildUpdateData e5 bAD)).base.Defense = 70 := by
  have h := update_base_stat_merge e5 bAD pbAD rfl
  exact ⟨rfl, h.2.1.2 (Or.inr rfl), h.2.2.1.1 70 rfl (by decide)⟩

/-! ### C3 -/

/-- C3: at creation each of the six base stat fields independently takes
the value 50 when the provided value is absent or falsy (including 0),
and the provided value otherwise. -/
theorem create_base_defaults (store : List Pokemon) (r : CreateReq)
    (f : FetchOutcome) (pb : BasePatch) (p : Pokemon)
    (hb : r.base = some pb)
    (h : (postPokemon store r f).result = .created p) :
    ((∀ v, pb.HP = some v → v ≠ 0 → p.base.HP = v) ∧
      ((pb.HP = none ∨ pb.HP = some 0) → p.base.HP = 50)) ∧
    ((∀ v, pb.Attack = some v → v ≠ 0 → p.base.Attack = v) ∧
      ((pb.Attack = none ∨ pb.Attack = some 0) → p.base.Attack = 50)) ∧
    ((∀ v, pb.Defense = some v → v ≠ 0 → p.base.Defense = v) ∧
      ((pb.Defense = none ∨ pb.Defense = some 0) → p.base.Defense = 50)) ∧
    ((∀ v, pb.SpecialAttack = some v → v ≠ 0 → p.base.SpecialAttack = v) ∧
      ((pb.SpecialAttack = none ∨ pb.SpecialAttack = some 0) →
        p.base.SpecialAttack = 50)) ∧
    ((∀ v, pb.SpecialDefense = some v → v ≠ 0 → p.base.SpecialDefense = v) ∧
      ((pb.SpecialDefense = none ∨ pb.SpecialDefense = some 0) →
        p.base.SpecialDefense = 50)) ∧
    ((∀ v, pb.Speed = some v → v ≠ 0 → p.base.Speed = v) ∧
      ((pb.Speed = none ∨ pb.Speed = some 0) → p.base.Speed = 50)) := by
  by_cases hv : validCreate r = true
  · simp only [postPokemon, hv, if_true] at h
    rw [CreateResult.created.injEq] at h
    subst h
    have hpb : r.base.getD emptyBasePatch = pb := by rw [hb]; rfl
    show
      ((∀ v, pb.HP = some v → v ≠ 0 →
          (createBase (r.base.getD emptyBasePatch)).HP = v) ∧ _) ∧ _
    rw [hpb]
    exact ⟨⟨fun v hv hnz => jsOrNat_pos hv hnz, fun hd => jsOrNat_falsy hd⟩,
      ⟨fun v hv hnz => jsOrNat_pos hv hnz, fun hd => jsOrNat_falsy hd⟩,
      ⟨fun v hv hnz => jsOrNat_pos hv hnz, fun hd => jsOrNat_falsy hd⟩,
      ⟨fun v hv hnz => jsOrNat_pos hv hnz, fun hd => jsOrNat_falsy hd⟩,
      ⟨fun v hv hnz => jsOrNat_pos hv hnz, fun hd => jsOrNat_falsy hd⟩,
      ⟨fun v hv hnz => jsOrNat_pos hv hnz, fun hd => jsOrNat_falsy hd⟩⟩
  · simp only [postPokemon, hv, Bool.false_eq_true, if_false] at h
    cases h

/-- The base patch `{HP: 0}`. -/
def pbHP0 : BasePatch :=
  { HP := some 0, Attack := none, Defense := none,
    SpecialAttack := none, SpecialDefense := none, Speed := none }

/-- A create request supplying `base.HP = 0`. -/
def rHP0 : CreateReq :=
  { name := some { english := none, japanese := none, chinese := none,
                   french := some "Test" }
    type := some ["Grass"]
    base := some pbHP0
    image := none
    hasFile := false }

/-- The record created from `rHP0` on an empty store. -/
def cHP0 : Pokemon :=
  { id := 1
    name := { english := none, japanese := none, chinese := none,
              french := some "Test" }
    type := ["Grass"]
    base := { HP := 50, Attack := 50, Defense := 50,
              SpecialAttack := 50, SpecialDefense := 50, Speed := 50 }
    image := imageUri 1 }

/-- Witness for C3: creating a record with `base.HP = 0` stores HP = 50. -/
theorem create_base_defaults_witness :
    rHP0.base = some pbHP0 ∧
    (postPokemon [] rHP0 .success).result = .created cHP0 ∧
    cHP0.base.HP = 50 :=
  ⟨rfl, rfl,
    (create_base_defaults [] rHP0 .success pbHP0 cHP0 rfl rfl).1.2 (Or.inr rfl)⟩

/-! ### C4 -/

/-- C4: for every page ≥ 1 and limit ≥ 1 the list envelope satisfies
`totalPages = ceil(total/limit)` (stated through its Galois
characterization `totalPages ≤ n ↔ total ≤ n*limit`), `hasNextPage` iff
`page < totalPages`, `hasPrevPage` iff `page > 1`, and the data slice is
the ascending sort dropped by `skip = (page-1)*limit` and capped at
`limit`; a page beyond `totalPages` yields an empty data set with the
same well-formed envelope, and missing page/limit inputs behave exactly
like `page = 1, limit = 20`. -/
theorem list_pagination_envelope (store : List Pokemon) (pq lq : Option Int)
    (hp : 1 ≤ pageOf pq) (hl : 1 ≤ limitOf lq) :
    (∀ n : Int, (getPokemons store pq lq).pagination.totalPages ≤ n ↔
        (store.length : Int) ≤ n * limitOf lq) ∧
    ((getPokemons store pq lq).pagination.hasNextPage = true ↔
        pageOf pq < (getPokemons store pq lq).pagination.totalPages) ∧
    ((getPokemons store pq lq).pagination.hasPrevPage = true ↔
        1 < pageOf pq) ∧
    (getPokemons store pq lq).data =
      ((sortByIdAsc store).drop ((pageOf pq - 1) * limitOf lq).toNat).take
        (limitOf lq).toNat ∧
    ((getPokemons store pq lq).pagination.totalPages < pageOf pq →
      (getPokemons store pq lq).data = []) ∧
    getPokemons store none none = getPokemons store (some 1) (some 20) := by
  have hl0 : (0 : ℚ) < (limitOf lq : ℚ) := by
    have h0 : (0 : Int) < limitOf lq := lt_of_lt_of_le Int.zero_lt_one hl
    exact_mod_cast h0
  have hceil : ∀ n : Int, (getPokemons store pq lq).pagination.totalPages ≤ n ↔
      (store.length : Int) ≤ n * limitOf lq := by
    intro n
    show ⌈(store.length : ℚ) / (limitOf lq : ℚ)⌉ ≤ n ↔
      (store.length : Int) ≤ n * limitOf lq
    rw [Int.ceil_le, div_le_iff₀ hl0]
    constructor
    · intro h; exact_mod_cast h
    · intro h; exact_mod_cast h
  refine ⟨hceil, ?_, ?_, rfl, ?_, rfl⟩
  · simp only [getPokemons, decide_eq_true_eq]
  · simp only [getPokemons, decide_eq_true_eq, gt_iff_lt]
  · intro hlt
    have h1 : (getPokemons store pq lq).pagination.totalPages ≤ pageOf pq - 1 := by
      omega
    have h2 := (hceil (pageOf pq - 1)).mp h1
    have h3 : (sortByIdAsc store).length ≤ ((pageOf pq - 1) * limitOf lq).toNat := by
      have hlen : (sortByIdAsc store).length = store.length :=
        (List.perm_insertionSort idAscRel store).length_eq
      omega
    show (((sortByIdAsc store).drop ((pageOf pq - 1) * limitOf lq).toNat).take
        (limitOf lq).toNat) = []
    rw [List.drop_eq_nil_of_le h3]
    exact List.take_nil

/-- A 25-record store with ids 0 to 24. -/
def store25 : List Pokemon := (List.range 25).map mkPoke

/-- Witness for C4 at page 3, limit 10 over 25 records: the envelope's
`totalPages` satisfies the ceiling characterization at `n = 3`
(`totalPages ≤ 3` iff `25 ≤ 30`). -/
theorem list_pagination_envelope_witness :
    1 ≤ pageOf (some 3) ∧ 1 ≤ limitOf (some 10) ∧
    ((getPokemons store25 (some 3) (some 10)).pagination.totalPages ≤ 3 ↔
      (store25.length : Int) ≤ 3 * limitOf (some 10)) :=
  ⟨by decide, by decide,
    (list_pagination_envelope store25 (some 3) (some 10)
      (by decide) (by decide)).1 3⟩

/-! ### C5 -/

/-- C5: an update whose patch carries only the top-level key `type` fully
replaces the stored type array and leaves name, base, image (and id)
unchanged; in general the merged record differs from the stored one only
at top-level keys present in the patch, and a present `type` is copied
verbatim. -/
theorem update_type_only_frame (e : Pokemon) (b : UpdateBody) :
    (∀ t, b.name = none → b.base = none → b.image = none → b.type = some t →
        applyUpdateData e (buildUpdateData e b) = { e with type := t }) ∧
    (∀ t, b.type = some t →
        (applyUpdateData e (buildUpdateData e b)).type = t) ∧
    (b.name = none → (applyUpdateData e (buildUpdateData e b)).name = e.name) ∧
    (b.type = none → (applyUpdateData e (buildUpdateData e b)).type = e.type) ∧
    (b.base = none → (applyUpdateData e (buildUpdateData e b)).base = e.base) ∧
    (b.image = none →
        (applyUpdateData e (buildUpdateData e b)).image = e.image) ∧
    (applyUpdateData e (buildUpdateData e b)).id = e.id := by
  refine ⟨?_, ?_, ?_, ?_, ?_, ?_, rfl⟩
  · intro t h1 h2 h3 h4
    simp [applyUpdateData, buildUpdateData, h1, h2, h3, h4]
  · intro t h4
    simp [applyUpdateData, buildUpdateData, h4]
  · intro h1
    simp [applyUpdateData, buildUpdateData, h1]
  · intro h4
    simp [applyUpdateData, buildUpdateData, h4]
  · intro h2
    simp [applyUpdateData, buildUpdateData, h2]
  · intro h3
    simp [applyUpdateData, buildUpdateData, h3]

/-- An update body carrying only a new `type` array. -/
def bTypeOnly : UpdateBody :=
  { name := none, type := some ["Fire"], base := none, image := none,
    otherKeys := 0 }

/-- Witness for C5: an update touching only `type` rewrites exactly the
type array of a concrete record. -/
theorem update_type_only_frame_witness :
    bTypeOnly.name = none ∧
    applyUpdateData e5 (buildUpdateData e5 bTypeOnly) =
      { e5 with type := ["Fire"] } :=
  ⟨rfl, (update_type_only_frame e5 bTypeOnly).1 ["Fire"] rfl rfl rfl rfl⟩

/-! ### C6 -/

/-- C6: a create request missing a required field (name, name.french,
type, or base) is rejected with a 400 validation error and the store is
untouched; an update with a missing body, or a body with zero top-level
keys, is rejected with a 400 and the store is untouched. -/
theorem validation_errors_no_mutation (store : List Pokemon) (r : CreateReq)
    (f : FetchOutcome) (idParam : String) (b : UpdateBody) :
    ((r.name = none ∨
        (∀ n, r.name = some n → n.french = none ∨ n.french = some "") ∨
        r.type = none ∨ r.base = none) →
      postPokemon store r f =
        { result := .badRequest, store := store, assetWritten := false }) ∧
    putPokemon store idParam none = (.badRequest, store) ∧
    (bodyKeyCount b = 0 →
      putPokemon store idParam (some b) = (.badRequest, store)) := by
  refine ⟨?_, rfl, ?_⟩
  · intro h
    have hv : ¬ validCreate r = true := by
      intro hv
      unfold validCreate at hv
      rcases hn : r.name with _ | n <;> rw [hn] at hv
      · cases hv
      · rcases h with h | h | h | h
        · rw [hn] at h; cases h
        · rcases h n hn with hf | hf <;> simp [jsTruthyStr, hf] at hv
        · simp [h] at hv
        · simp [h] at hv
    simp [postPokemon, hv]
  · intro h
    simp [putPokemon, h]

/-- A create request without a `base` object. -/
def rNoBase : CreateReq :=
  { name := some { english := none, japanese := none, chinese := none,
                   french := some "X" }
    type := some ["Grass"]
    base := none
    image := none
    hasFile := false }

/-- An update body with zero top-level keys. -/
def bEmpty : UpdateBody :=
  { name := none, type := none, base := none, image := none, otherKeys := 0 }

/-- Witness for C6: a create without `base` and an update with an empty
body are both rejected and leave the concrete store untouched. -/
theorem validation_errors_no_mutation_witness :
    rNoBase.base = none ∧
    postPokemon demoStore rNoBase .success =
      { result := .badRequest, store := demoStore, assetWritten := false } ∧
    putPokemon demoStore "3" none = (.badRequest, demoStore) ∧
    bodyKeyCount bEmpty = 0 ∧
    putPokemon demoStore "3" (some bEmpty) = (.badRequest, demoStore) := by
  have h := validation_errors_no_mutation demoStore rNoBase .success "3" bEmpty
  exact ⟨rfl, h.1 (Or.inr (Or.inr (Or.inr rfl))), h.2.1, rfl, h.2.2 rfl⟩

/-! ### C7 -/

/-- C7: for a valid create request, the outcome of the remote image fetch
(network error, non-2xx, timeout) is fully swallowed: the response and
the resulting store are identical for any two fetch outcomes, the create
succeeds with a record whose image field is the deterministic URI ending
in `/<id>.png`, and when the fetch fails (and no file was uploaded) no
asset file is written. -/
theorem image_fetch_failure_swallowed (store : List Pokemon) (r : CreateReq)
    (f1 f2 : FetchOutcome) (hv : validCreate r = true) :
    (∃ p, (postPokemon store r f1).result = .created p ∧
      p.image = "http://localhost:3000/assets/pokemons" ++ "/" ++
        toString p.id ++ ".png") ∧
    (postPokemon store r f1).result = (postPokemon store r f2).result ∧
    (postPokemon store r f1).store = (postPokemon store r f2).store ∧
    (r.hasFile = false → fetchWrites f1 = false →
      (postPokemon store r f1).assetWritten = false) := by
  refine ⟨?_, ?_, ?_, ?_⟩
  · simp only [postPokemon, hv, if_true]
    exact ⟨_, rfl, rfl⟩
  · simp only [postPokemon, hv, if_true]
  · simp only [postPokemon, hv, if_true]
  · intro h1 h2
    cases hi : r.image <;>
      simp [postPokemon, hv, h1, h2, hi]

/-- A valid create request whose image is a remote URL. -/
def rUrl : CreateReq :=
  { name := some { english := none, japanese := none, chinese := none,
                   french := some "Test" }
    type := some ["Grass"]
    base := some emptyBasePatch
    image := some "http://example.com/a.png"
    hasFile := false }

/-- Witness for C7: on a concrete store, a create whose image fetch fails
with a network error returns the same response and store as one whose
fetch succeeds, and writes no asset file. -/
theorem image_fetch_failure_swallowed_witness :
    validCreate rUrl = true ∧
    (postPokemon demoStore rUrl .networkError).result =
      (postPokemon demoStore rUrl .success).result ∧
    (postPokemon demoStore rUrl .networkError).store =
      (postPokemon demoStore rUrl .success).store ∧
    (postPokemon demoStore rUrl .networkError).assetWritten = false := by
  have h := image_fetch_failure_swallowed demoStore rUrl .networkError .success rfl
  exact ⟨rfl, h.2.1, h.2.2.1, h.2.2.2 rfl rfl⟩

/-! ### C8 -/

/-- C8: a lookup-by-id whose id path parameter is non-numeric parses to
`NaN`, which matches no record, so the handler answers with the 404
not-found outcome for every store (never a store error or a thrown
exception). -/
theorem nonnumeric_id_lookup_not_found (store : List Pokemon) (s : String)
    (h : parseIntJS s = none) : getPokemonById store s = .notFound := by
  unfold getPokemonById
  rw [h]
  rfl

/-- Witness for C8: looking up the non-numeric id `"abc"` on a concrete
non-empty store yields the not-found outcome. -/
theorem nonnumeric_id_lookup_not_found_witness :
    parseIntJS "abc" = none ∧
    getPokemonById demoStore "abc" = .notFound :=
  ⟨by decide, nonnumeric_id_lookup_not_found demoStore "abc" (by decide)⟩

/-! ### C9 -/

/-- C9: at creation only the french locale of the supplied name is
stored: the created record's english, japanese, and chinese locales are
absent, and its french locale is exactly the one supplied. -/
theorem create_keeps_only_french (store : List Pokemon) (r : CreateReq)
    (f : FetchOutcome) (p : Pokemon)
    (h : (postPokemon store r f).result = .created p) :
    p.name.english = none ∧ p.name.japanese = none ∧
    p.name.chinese = none ∧
    ∀ n, r.name = some n → p.name.french = n.french := by
  by_cases hv : validCreate r = true
  · simp only [postPokemon, hv, if_true] at h
    rw [CreateResult.created.injEq] at h
    subst h
    refine ⟨rfl, rfl, rfl, fun n hn => ?_⟩
    show (r.name.getD emptyNamePatch).french = n.french
    rw [hn]
    rfl
  · simp only [postPokemon, hv, Bool.false_eq_true, if_false] at h
    cases h

/-- A name patch supplying all four locales. -/
def npMulti : NamePatch :=
  { english := some "Bulbasaur", japanese := some "Fushigidane",
    chinese := some "Miaowazhongzi", french := some "Bulbizarre" }

/-- A create request supplying all four name locales. -/
def rMulti : CreateReq :=
  { name := some npMulti
    type := some ["Grass"]
    base := some emptyBasePatch
    image := none
    hasFile := false }

/-- The record created from `rMulti` on `demoStore`. -/
def cMulti : Pokemon :=
  { id := 8
    name := { english := none, japanese := none, chinese := none,
              french := some "Bulbizarre" }
    type := ["Grass"]
    base := { HP := 50, Attack := 50, Defense := 50,
              SpecialAttack := 50, SpecialDefense := 50, Speed := 50 }
    image := imageUri 8 }

/-- Witness for C9: creating with english, japanese, and chinese locales
alongside french stores the french value only. -/
theorem create_keeps_only_french_witness :
    (postPokemon demoStore rMulti .success).result = .created cMulti ∧
    cMulti.name.english = none ∧
    cMulti.name.french = some "Bulbizarre" := by
  have h := create_keeps_only_french demoStore rMulti .success cMulti rfl
  exact ⟨rfl, h.1, h.2.2.2 npMulti rfl⟩

/-! ### C10 -/

/-- C10: an update whose body is non-empty but carries none of the
recognized top-level keys (name, type, base, image) succeeds with the
200 outcome returning the stored record, and leaves the store entirely
unchanged. -/
theorem update_unrecognized_keys_noop (store : List Pokemon)
    (idParam : String) (b : UpdateBody) (e : Pokemon)
    (hname : b.name = none) (htype : b.type = none) (hbase : b.base = none)
    (himage : b.image = none) (hkeys : b.otherKeys ≠ 0)
    (hfound : findById store (parseIntJS idParam) = some e) :
    putPokemon store idParam (some b) = (.ok e, store) := by
  have hcount : ¬ bodyKeyCount b = 0 := by
    simp [bodyKeyCount, hname, htype, hbase, himage, hkeys]
  have hu : buildUpdateData e b =
      { name := none, type := none, base := none, image := none } := by
    simp [buildUpdateData, hname, htype, hbase, himage]
  have happ : ∀ x, applyUpdateData x (buildUpdateData e b) = x := by
    intro x
    rw [hu]
    rfl
  simp [putPokemon, hcount, hfound, happ,
    updateFirst_id (fun _ => rfl : ∀ p : Pokemon, p = p)]

/-- An update body whose only top-level key is unrecognized. -/
def bOther : UpdateBody :=
  { name := none, type := none, base := none, image := none, otherKeys := 1 }

/-- Witness for C10: updating record 5 with a body holding one
unrecognized key returns the record unchanged and leaves the store as
it was. -/
theorem update_unrecognized_keys_noop_witness :
    bOther.otherKeys ≠ 0 ∧
    putPokemon [mkPoke 5] "5" (some bOther) = (.ok (mkPoke 5), [mkPoke 5]) :=
  ⟨by decide,
    update_unrecognized_keys_noop [mkPoke 5] "5" bOther (mkPoke 5)
      rfl rfl rfl rfl (by decide) (by decide)⟩

end PokeApi
